import Mathlib

/-!
Verification of the Metrics Engine of `stock_dashboard.py`, the single
source file of the stock-split dashboard repository.

The reproducible logic of the script lives inline in `main`: the four KPI
cards (lines 72-106), the long-form scenario table for the grouped bar
chart (lines 154-162), the per-company recommendation text (lines
217-218) and the formatted display table built from a copy of the
dataframe (lines 235-245).  `load_data` (lines 50-54) is `pd.read_csv`
under a process-wide `@st.cache_data` memoisation.

Shallow embedding choices:
* dataframe rows become Lean structures whose numeric columns are `ℚ`
  (the CSV carries exact decimals; presentation-side rounding is out of
  scope);
* pandas and Python failures become a typed `PyError` result in `Except`;
* the `@st.cache_data` cache becomes explicit state passing over a
  `ProcState` record;
* everything is computable, so concrete runs evaluate by `decide`/`rfl`.
-/

namespace StockDashboard

/-- The failure kinds reachable by the script -- `FileNotFoundError`
(caught at line 65), pandas `KeyError` on a missing column, and the
`ValueError` that `Series.idxmax` raises on an empty series -- together
with the two typed error kinds the design document postulates
(`schemaError`, `emptyPortfolioError`).  The script itself defines no
error class, so the latter two constructors are never produced by any
definition below. -/
inductive PyError where
  | fileNotFound
  | keyError (key : String)
  | valueError (msg : String)
  | schemaError
  | emptyPortfolioError
deriving DecidableEq

/-- A raw tabular source as `pd.read_csv` delivers it: a header naming
the columns, and stringly-typed cells, one inner list per data row. -/
structure Csv where
  columns : List String
  cells : List (List String)
deriving DecidableEq

/-- The seven supplied columns of one company row (spec section 3):
everything except the two precomputed split-price columns. -/
structure CompanyRecord where
  ticker : String
  company : String
  price_usd : ℚ
  pe_ratio : ℚ
  market_cap_billions : ℚ
  dividend_yield : ℚ
  split_recommendation : String
deriving DecidableEq

/-- One full dashboard dataframe row.  The CSV shipped with the
dashboard already carries `Price_After_10to1` and `Price_After_20to1`,
so a loaded row has all nine columns. -/
structure DerivedRecord where
  base : CompanyRecord
  price_after_10to1 : ℚ
  price_after_20to1 : ℚ
deriving DecidableEq

/-- Modelled from the spec: no code under `src/` computes the split
prices (the dashboard reads the precomputed `Price_After_10to1` and
`Price_After_20to1` columns straight from the CSV), so the derivation is
taken from the spec's words: `price_after_10to1` is `price_usd / 10` and
`price_after_20to1` is `price_usd / 20`, by exact division. -/
def derive (r : CompanyRecord) : DerivedRecord :=
  { base := r
    price_after_10to1 := r.price_usd / 10
    price_after_20to1 := r.price_usd / 20 }

/-- The load operation `load_data` (lines 50-54): `pd.read_csv` on the fixed path.  A
missing file raises `FileNotFoundError`; an existing file is returned as
is -- no schema check of any kind is performed. -/
def load_data (source : Option Csv) : Except PyError Csv :=
  match source with
  | none => Except.error PyError.fileNotFound
  | some df => Except.ok df

/-- Column access `df[c]` / `row[c]`: pandas raises `KeyError` when the
column is absent.  This is where a missing column first surfaces -- for
`PE_Ratio`, at the company-card section (line 224), long after loading
succeeded. -/
def getCol (df : Csv) (c : String) : Except PyError (List String) :=
  if c ∈ df.columns then
    Except.ok (df.cells.map (fun r => r.getD (df.columns.indexOf c) ""))
  else
    Except.error (PyError.keyError c)

/-- One long-form row of the comparison table (lines 157-159). -/
structure ScenarioRow where
  company : String
  scenario : String
  price : ℚ
deriving DecidableEq

/-- The three comparison entries appended for one dataframe row (lines
156-160), in the fixed textual order `Current`, `10:1 Split`,
`20:1 Split`. -/
def scenarioTriple (row : DerivedRecord) : List ScenarioRow :=
  [{ company := row.base.company, scenario := "Current",
     price := row.base.price_usd },
   { company := row.base.company, scenario := "10:1 Split",
     price := row.price_after_10to1 },
   { company := row.base.company, scenario := "20:1 Split",
     price := row.price_after_20to1 }]

/-- Lines 154-160: `comparison_data` is built by iterating the dataframe
in row order and extending with the three scenario entries per row. -/
def toScenarioRows (data : List DerivedRecord) : List ScenarioRow :=
  data.flatMap scenarioTriple

/-- Line 81: `len(data[data["Split_Recommendation"] == "YES"])` -- the
number of rows whose recommendation cell is exactly the string `YES`. -/
def recommend_count (data : List DerivedRecord) : ℕ :=
  (data.filter (fun row => row.base.split_recommendation == "YES")).length

/-- Line 90: `data["Price_USD"].mean()` of a non-empty price series. -/
def avg_price (data : List DerivedRecord) : ℚ :=
  (data.map (fun row => row.base.price_usd)).sum / (data.length : ℚ)

/-- The portfolio-level aggregates of the KPI row (lines 72-106), as one
record. -/
structure PortfolioSummary where
  company_count : ℕ
  split_recommended_count : ℕ
  average_price : ℚ
  max_price : ℚ
  max_price_ticker : String
deriving DecidableEq

/-- The four KPI cards of `main` (lines 72-106) bundled into one
aggregate: `company_count` is the hard-coded literal `5` of line 76;
`split_recommended_count`, `average_price` and `max_price` are the
computations of lines 81, 90 and 99; `max_price_ticker` follows line
100, `data.loc[data["Price_USD"].idxmax(), "Ticker"]`, where
`Series.idxmax` yields the label of the FIRST occurrence of the maximum
and raises `ValueError` on an empty series, so no summary is produced
for an empty dataframe. -/
def summarize (data : List DerivedRecord) : Except PyError PortfolioSummary :=
  match (data.map (fun row => row.base.price_usd)).max? with
  | none => Except.error
      (PyError.valueError "attempt to get argmax of an empty sequence")
  | some m =>
    match data.get? ((data.map (fun row => row.base.price_usd)).indexOf m) with
    | none => Except.error (PyError.keyError
        (toString ((data.map (fun row => row.base.price_usd)).indexOf m)))
    | some row =>
      Except.ok
        { company_count := 5
          split_recommended_count := recommend_count data
          average_price := avg_price data
          max_price := m
          max_price_ticker := row.base.ticker }

/-- Lines 217-218: the per-company card text, keyed on exact string
equality with `YES`; every other value falls to the `NO` branch. -/
def recommendation_text (row : DerivedRecord) : String :=
  if row.base.split_recommendation == "YES" then "✅ SPLIT: YES"
  else "❌ SPLIT: NO"

/-- One row of the formatted display table (lines 235-245): every
numeric column has been rendered to a string. -/
structure DisplayRow where
  ticker : String
  company : String
  price_usd : String
  pe_ratio : String
  market_cap_billions : String
  dividend_yield : String
  split_recommendation : String
  price_after_10to1 : String
  price_after_20to1 : String
deriving DecidableEq

/-- The per-row formatting of lines 238-245.  The exact text of Python's
format specifiers (comma grouping, fixed decimals) is presentation and
is abbreviated to a plain decimal rendering; what matters to the claims
is that formatting consumes the row and builds new strings. -/
def formatRow (row : DerivedRecord) : DisplayRow :=
  { ticker := row.base.ticker
    company := row.base.company
    price_usd := "$" ++ toString row.base.price_usd
    pe_ratio := toString row.base.pe_ratio
    market_cap_billions := "$" ++ toString row.base.market_cap_billions ++ "B"
    dividend_yield := toString row.base.dividend_yield ++ "%"
    split_recommendation := row.base.split_recommendation
    price_after_10to1 := "$" ++ toString row.price_after_10to1
    price_after_20to1 := "$" ++ toString row.price_after_20to1 }

/-- Lines 235-245: `display_df = data.copy()` and the formatting is
applied to the copy, column by column; the function yields the rendered
table together with the dataframe the caller still holds. -/
def renderTable (data : List DerivedRecord) :
    List DisplayRow × List DerivedRecord :=
  (data.map formatRow, data)

/-- The process-wide state the script can see: the CSV file on disk
(read-only) and the `@st.cache_data` memoisation slot of `load_data`. -/
structure ProcState where
  source : Option Csv
  cached : Option Csv
deriving DecidableEq

/-- Streamlit's `@st.cache_data` applied to `load_data` (lines 50-54): a cache hit
returns the memoised dataframe untouched; a cache miss reads the file
(failing with `FileNotFoundError` when absent) and writes the result
into the process-wide cache slot. -/
def load_data_cached (s : ProcState) : Except PyError Csv × ProcState :=
  match s.cached with
  | some df => (Except.ok df, s)
  | none =>
    match s.source with
    | none => (Except.error PyError.fileNotFound, s)
    | some df => (Except.ok df, { s with cached := some df })

/-- The derivation of a whole record set, threaded through the process
state: it reads nothing but its argument. -/
def deriveS (rs : List CompanyRecord) (s : ProcState) :
    List DerivedRecord × ProcState :=
  (rs.map derive, s)

/-- The scenario-table construction of lines 154-160 threaded through
the process state: it only iterates `data`. -/
def toScenarioRowsS (data : List DerivedRecord) (s : ProcState) :
    List ScenarioRow × ProcState :=
  (toScenarioRows data, s)

/-- The KPI aggregation of lines 72-106 threaded through the process
state: it only reads `data`. -/
def summarizeS (data : List DerivedRecord) (s : ProcState) :
    Except PyError PortfolioSummary × ProcState :=
  (summarize data, s)

/-! ### Concrete data for witnesses and counterexamples

Values follow the spec's concrete scenario (section 8) and the figures
quoted by the dashboard's insight panel. -/

/-- Amazon row of the spec's concrete scenario. -/
def amzn : CompanyRecord :=
  { ticker := "AMZN", company := "Amazon", price_usd := 3584
    pe_ratio := 60.3, market_cap_billions := 1810
    dividend_yield := 0, split_recommendation := "YES" }

/-- Coca-Cola row of the spec's concrete scenario. -/
def ko : CompanyRecord :=
  { ticker := "KO", company := "Coca-Cola", price_usd := 62.5
    pe_ratio := 29.5, market_cap_billions := 270
    dividend_yield := 2.7, split_recommendation := "NO" }

/-- The spec's two-company concrete scenario, as loaded rows. -/
def sampleRows : List DerivedRecord := [derive amzn, derive ko]

/-- The aggregate the KPI row computes over `sampleRows`; its
`company_count` is the hard-coded `5`, not `2`. -/
def sampleSummary : PortfolioSummary :=
  { company_count := 5, split_recommended_count := 1
    average_price := 1823.25, max_price := 3584
    max_price_ticker := "AMZN" }

/-- A Coca-Cola row whose recommendation cell holds lowercase "yes". -/
def koLower : DerivedRecord :=
  derive { ko with split_recommendation := "yes" }

/-- Six identical rows, all recommended: more `YES` rows than the
hard-coded company count of the KPI card. -/
def sixYes : List DerivedRecord := List.replicate 6 (derive amzn)

/-- The aggregate the KPI row computes over `sixYes`. -/
def sixSummary : PortfolioSummary :=
  { company_count := 5, split_recommended_count := 6
    average_price := 3584, max_price := 3584
    max_price_ticker := "AMZN" }

/-- A source with every column except `PE_Ratio`. -/
def badCsv : Csv :=
  { columns := ["Ticker", "Company", "Price_USD", "Market_Cap_Billions",
                "Dividend_Yield", "Split_Recommendation",
                "Price_After_10to1", "Price_After_20to1"]
    cells := [["AMZN", "Amazon", "3584.00", "1810", "0.00", "YES",
               "358.40", "179.20"]] }

/-- A well-formed source with all nine columns and one row. -/
def goodCsv : Csv :=
  { columns := ["Ticker", "Company", "Price_USD", "PE_Ratio",
                "Market_Cap_Billions", "Dividend_Yield",
                "Split_Recommendation", "Price_After_10to1",
                "Price_After_20to1"]
    cells := [["KO", "Coca-Cola", "62.50", "29.5", "270", "2.70", "NO",
               "6.25", "3.125"]] }

/-- The process state at start-up: the CSV present on disk, the
`@st.cache_data` slot still empty. -/
def procState0 : ProcState := { source := some goodCsv, cached := none }

/-! ### Helper lemmas -/

instance {ε α : Type} [DecidableEq ε] [DecidableEq α] : DecidableEq (Except ε α) := fun x y =>
  match x, y with
  | Except.ok a, Except.ok b =>
    if h : a = b then isTrue (by rw [h]) else isFalse (fun hh => h (Except.ok.inj hh))
  | Except.error e, Except.error f =>
    if h : e = f then isTrue (by rw [h]) else isFalse (fun hh => h (Except.error.inj hh))
  | Except.ok _, Except.error _ => isFalse (fun hh => Except.noConfusion hh)
  | Except.error _, Except.ok _ => isFalse (fun hh => Except.noConfusion hh)

lemma ne_of_lt_indexOf {α : Type} [DecidableEq α] {l : List α} {a : α} :
    ∀ {j : ℕ} (hj : j < l.length), j < l.indexOf a → l.get ⟨j, hj⟩ ≠ a := by
  induction l with
  | nil => intro j hj _; exact absurd hj (Nat.not_lt_zero j)
  | cons b t ih =>
    intro j hj hlt
    by_cases hb : b = a
    · rw [List.indexOf_cons_eq t hb] at hlt
      exact absurd hlt (Nat.not_lt_zero j)
    · cases j with
      | zero => simpa using hb
      | succ j =>
        rw [List.indexOf_cons_ne t hb] at hlt
        exact ih _ (Nat.lt_of_succ_lt_succ hlt)

lemma max?_spec {l : List ℚ} {m : ℚ} (hm : l.max? = some m) :
    m ∈ l ∧ ∀ b ∈ l, b ≤ m := by
  have anti : Std.Antisymm ((· : ℚ) ≤ ·) := ⟨fun h1 h2 => le_antisymm h1 h2⟩
  exact (List.max?_eq_some_iff (fun a => le_refl a) (fun a b => max_choice a b)
    (fun a b c => max_le_iff)).mp hm

lemma min?_spec {l : List ℚ} {m : ℚ} (hm : l.min? = some m) :
    m ∈ l ∧ ∀ b ∈ l, m ≤ b := by
  have anti : Std.Antisymm ((· : ℚ) ≤ ·) := ⟨fun h1 h2 => le_antisymm h1 h2⟩
  exact (List.min?_eq_some_iff (fun a => le_refl a) (fun a b => min_choice a b)
    (fun a b c => le_min_iff)).mp hm

lemma toScenarioRows_cons (d : DerivedRecord) (ds : List DerivedRecord) :
    toScenarioRows (d :: ds) = scenarioTriple d ++ toScenarioRows ds := rfl

lemma summarize_sampleRows_eval : summarize sampleRows = Except.ok sampleSummary := by
  simp [summarize, sampleRows, sampleSummary, amzn, ko, derive, recommend_count,
    avg_price, List.indexOf, List.findIdx, List.findIdx.go, max_def]
  norm_num

lemma summarize_sixYes_eval : summarize sixYes = Except.ok sixSummary := by
  simp [summarize, sixYes, sixSummary, amzn, derive, recommend_count,
    avg_price, List.indexOf, List.findIdx, List.findIdx.go, max_def, List.replicate]
  norm_num

/-! ### C1 -/

/-- C1: for every record with positive `price_usd`, `derive` produces
`price_after_10to1 = price_usd / 10` and
`price_after_20to1 = price_usd / 20` exactly. -/
theorem derive_exact_division (r : CompanyRecord) (_h : 0 < r.price_usd) :
    (derive r).price_after_10to1 = r.price_usd / 10 ∧
    (derive r).price_after_20to1 = r.price_usd / 20 :=
  ⟨rfl, rfl⟩

/-- Witness for C1 at the Amazon row of the spec's concrete scenario. -/
theorem derive_exact_division_witness :
    0 < amzn.price_usd ∧
    ((derive amzn).price_after_10to1 = amzn.price_usd / 10 ∧
     (derive amzn).price_after_20to1 = amzn.price_usd / 20) :=
  ⟨by norm_num [amzn], derive_exact_division amzn (by norm_num [amzn])⟩

/-! ### C6 -/

/-- C6: for every derived record with positive `price_usd`, the strict
ordering `price_after_20to1 < price_after_10to1 < price_usd` holds. -/
theorem derive_price_ordering (r : CompanyRecord) (h : 0 < r.price_usd) :
    (derive r).price_after_20to1 < (derive r).price_after_10to1 ∧
    (derive r).price_after_10to1 < r.price_usd := by
  constructor
  · show r.price_usd / 20 < r.price_usd / 10
    apply div_lt_div_of_pos_left h <;> norm_num
  · show r.price_usd / 10 < r.price_usd
    exact div_lt_self h (by norm_num)

/-- Witness for C6 at the Coca-Cola row. -/
theorem derive_price_ordering_witness :
    0 < ko.price_usd ∧
    ((derive ko).price_after_20to1 < (derive ko).price_after_10to1 ∧
     (derive ko).price_after_10to1 < ko.price_usd) :=
  ⟨by norm_num [ko], derive_price_ordering ko (by norm_num [ko])⟩

/-! ### C2 -/

/-- C2 counterexample: over the spec's own two-row scenario the KPI card
reports a company count of 5, not the input size 2. -/
theorem company_count_not_input_size :
    ¬ ((summarize sampleRows).toOption.map PortfolioSummary.company_count =
        some sampleRows.length) := by
  rw [summarize_sampleRows_eval]
  decide

/-- C2 amended: whatever the input, a produced summary carries the
hard-coded company count 5 of line 76. -/
theorem company_count_constant (data : List DerivedRecord)
    (s : PortfolioSummary) (h : summarize data = Except.ok s) :
    s.company_count = 5 := by
  unfold summarize at h
  split at h
  · exact absurd h (by simp)
  · split at h
    · exact absurd h (by simp)
    · cases h
      rfl

/-- Witness for the amended C2 at the two-row scenario. -/
theorem company_count_constant_witness :
    summarize sampleRows = Except.ok sampleSummary ∧
    sampleSummary.company_count = 5 :=
  ⟨summarize_sampleRows_eval,
   company_count_constant sampleRows sampleSummary summarize_sampleRows_eval⟩

/-! ### C3 -/

/-- C3 counterexample: on the empty set the aggregation does not fail
with the postulated `EmptyPortfolioError`. -/
theorem summarize_empty_not_emptyPortfolioError :
    summarize ([] : List DerivedRecord) ≠
      Except.error PyError.emptyPortfolioError := by
  decide

/-- C3 amended: on the empty set the aggregation produces no summary --
it fails -- but with the untyped `ValueError` that `Series.idxmax`
raises, not with a typed `EmptyPortfolioError`. -/
theorem summarize_empty_valueError :
    summarize ([] : List DerivedRecord) =
      Except.error (PyError.valueError
        "attempt to get argmax of an empty sequence") := rfl

/-! ### C10 -/

/-- C10: a row is counted toward the recommendation tally exactly when
its cell is the exact string `YES`; any other value (such as the
lowercase "yes" of `koLower`) silently contributes nothing and renders
as the `NO` card text, with no error raised. -/
theorem recommend_count_exact_yes (row : DerivedRecord)
    (data : List DerivedRecord) :
    recommend_count (row :: data) =
      (if row.base.split_recommendation = "YES" then 1 else 0) +
        recommend_count data ∧
    recommendation_text row =
      (if row.base.split_recommendation = "YES" then "✅ SPLIT: YES"
       else "❌ SPLIT: NO") ∧
    recommend_count [koLower] = 0 := by
  refine ⟨?_, ?_, by decide⟩
  · by_cases h : row.base.split_recommendation = "YES"
    · simp [recommend_count, List.filter_cons, h]
      omega
    · simp [recommend_count, List.filter_cons, h]
  · by_cases h : row.base.split_recommendation = "YES" <;>
      simp [recommendation_text, h]


/-! ### C4 -/

/-- C4 counterexample: a source missing the required `PE_Ratio` column
loads successfully; `load` does not fail with `SchemaError`. -/
theorem load_missing_column_no_schemaError :
    load_data (some badCsv) = Except.ok badCsv ∧
    (Except.ok badCsv : Except PyError Csv) ≠
      Except.error PyError.schemaError :=
  ⟨rfl, by decide⟩

/-- C4 amended: `load` performs no schema validation -- it never fails
with `SchemaError`, it returns any existing source unchecked, and a
missing column only surfaces later, as an untyped `KeyError`, when the
column is first accessed. -/
theorem load_no_validation (src : Option Csv) :
    load_data src ≠ Except.error PyError.schemaError ∧
    (∀ df, src = some df → load_data src = Except.ok df) ∧
    (∀ df c, c ∉ df.columns →
      getCol df c = Except.error (PyError.keyError c)) := by
  refine ⟨?_, ?_, ?_⟩
  · cases src <;> simp [load_data]
  · intro df h
    subst h
    rfl
  · intro df c hc
    simp [getCol, hc]

/-- Witness for the amended C4: the `PE_Ratio`-less source loads, and
accessing its `PE_Ratio` column raises `KeyError`. -/
theorem load_no_validation_witness :
    load_data (some badCsv) = Except.ok badCsv ∧
    getCol badCsv "PE_Ratio" = Except.error (PyError.keyError "PE_Ratio") :=
  ⟨(load_no_validation (some badCsv)).2.1 badCsv rfl,
   (load_no_validation (some badCsv)).2.2 badCsv "PE_Ratio" (by decide)⟩

/-! ### C9 -/

/-- C9 counterexample: the first call of the memoised `load_data`
changes the process-wide state -- it fills the `@st.cache_data` slot. -/
theorem load_cached_mutates_state :
    (load_data_cached procState0).2 ≠ procState0 := by decide

/-- C9 amended: `derive`, `toScenarioRows`, `summarize` and the display
table leave both their input and the process state untouched (the table
formats a copy), and `load_data` never mutates the source; the one
deviation from the claim is the memoisation cache, which the first
`load_data` call fills -- a second call then leaves the state fixed. -/
theorem operations_no_mutation (rs : List CompanyRecord)
    (data : List DerivedRecord) (s : ProcState) :
    (deriveS rs s).2 = s ∧
    (toScenarioRowsS data s).2 = s ∧
    (summarizeS data s).2 = s ∧
    (renderTable data).2 = data ∧
    (load_data_cached s).2.source = s.source ∧
    (load_data_cached (load_data_cached s).2).2 = (load_data_cached s).2 := by
  refine ⟨rfl, rfl, rfl, rfl, ?_, ?_⟩
  · rcases s with ⟨src, cach⟩
    cases cach <;> cases src <;> rfl
  · rcases s with ⟨src, cach⟩
    cases cach <;> cases src <;> rfl

/-! ### C5 -/

/-- C5: the comparison table has exactly `3 × |records|` rows, and the
block of three rows at offset `3 i` is exactly the scenario triple of
the `i`-th input record, in the fixed order `Current`, `10:1 Split`,
`20:1 Split` (the order `scenarioTriple` lists them in). -/
theorem toScenarioRows_shape (data : List DerivedRecord) :
    (toScenarioRows data).length = 3 * data.length ∧
    ∀ i (hi : i < data.length),
      ((toScenarioRows data).drop (3 * i)).take 3 =
        scenarioTriple (data.get ⟨i, hi⟩) := by
  constructor
  · induction data with
    | nil => rfl
    | cons d ds ih =>
      rw [toScenarioRows_cons, List.length_append, ih]
      simp [scenarioTriple]
      ring
  · induction data with
    | nil =>
      intro i hi
      exact absurd hi (Nat.not_lt_zero i)
    | cons d ds ih =>
      intro i hi
      cases i with
      | zero =>
        rw [toScenarioRows_cons]
        simp only [Nat.mul_zero, List.drop_zero]
        rw [List.take_left' (show (scenarioTriple d).length = 3 from rfl)]
        rfl
      | succ i =>
        rw [toScenarioRows_cons,
          show 3 * (i + 1) = 3 + 3 * i from by ring,
          ← List.drop_drop,
          List.drop_left' (show (scenarioTriple d).length = 3 from rfl)]
        simpa using ih i (Nat.lt_of_succ_lt_succ hi)

/-- Witness for C5: over the two-row scenario, the first block of three
comparison rows is Amazon's scenario triple. -/
theorem toScenarioRows_shape_witness :
    ((toScenarioRows sampleRows).drop (3 * 0)).take 3 =
      scenarioTriple (sampleRows.get ⟨0, Nat.succ_pos 1⟩) :=
  (toScenarioRows_shape sampleRows).2 0 (Nat.succ_pos 1)


/-! ### C7 -/

/-- C7: on a non-empty set the aggregation succeeds and its
`max_price_ticker` is the ticker of the first record, in input order,
attaining the maximum price: every record's price is bounded by the
chosen record's price, and every strictly earlier record is strictly
cheaper.  The choice is a function of the input list alone. -/
theorem summarize_max_ticker_first (data : List DerivedRecord)
    (hne : data ≠ []) :
    ∃ s, summarize data = Except.ok s ∧
      ∃ i, ∃ hi : i < data.length,
        s.max_price_ticker = (data.get ⟨i, hi⟩).base.ticker ∧
        (∀ j (hj : j < data.length),
          (data.get ⟨j, hj⟩).base.price_usd ≤
            (data.get ⟨i, hi⟩).base.price_usd) ∧
        (∀ j (hj : j < data.length), j < i →
          (data.get ⟨j, hj⟩).base.price_usd <
            (data.get ⟨i, hi⟩).base.price_usd) := by
  obtain ⟨m, hm⟩ :
      ∃ m, (data.map (fun row => row.base.price_usd)).max? = some m := by
    cases hq : (data.map (fun row => row.base.price_usd)).max? with
    | none =>
      rw [List.max?_eq_none_iff, List.map_eq_nil_iff] at hq
      exact absurd hq hne
    | some m => exact ⟨m, rfl⟩
  obtain ⟨hmem, hub⟩ := max?_spec hm
  have hlen : (data.map (fun row => row.base.price_usd)).length = data.length :=
    List.length_map _ _
  have hidx : (data.map (fun row => row.base.price_usd)).indexOf m <
      (data.map (fun row => row.base.price_usd)).length :=
    List.indexOf_lt_length.mpr hmem
  have hi : (data.map (fun row => row.base.price_usd)).indexOf m <
      data.length := hlen ▸ hidx
  have hgetp : (data.map (fun row => row.base.price_usd)).get
      ⟨(data.map (fun row => row.base.price_usd)).indexOf m, hidx⟩ = m :=
    List.indexOf_get hidx
  have hmap : ∀ (j : ℕ) (hj : j < data.length) (hj' : j <
      (data.map (fun row => row.base.price_usd)).length),
      (data.map (fun row => row.base.price_usd)).get ⟨j, hj'⟩ =
        (data.get ⟨j, hj⟩).base.price_usd := by
    intro j hj hj'
    simp
  have hget : data.get? ((data.map (fun row => row.base.price_usd)).indexOf m) =
      some (data.get ⟨(data.map (fun row => row.base.price_usd)).indexOf m, hi⟩) :=
    List.get?_eq_get hi
  have hpi : (data.get ⟨(data.map (fun row => row.base.price_usd)).indexOf m,
      hi⟩).base.price_usd = m := by
    rw [← hmap _ hi hidx]
    exact hgetp
  refine ⟨{ company_count := 5
            split_recommended_count := recommend_count data
            average_price := avg_price data
            max_price := m
            max_price_ticker :=
              (data.get ⟨(data.map (fun row => row.base.price_usd)).indexOf m,
                hi⟩).base.ticker },
         ?_, (data.map (fun row => row.base.price_usd)).indexOf m, hi, rfl,
         ?_, ?_⟩
  · unfold summarize
    rw [hm]
    simp only [hget]
  · intro j hj
    rw [hpi]
    have hj' : j < (data.map (fun row => row.base.price_usd)).length :=
      hlen ▸ hj
    have : (data.map (fun row => row.base.price_usd)).get ⟨j, hj'⟩ ∈
        data.map (fun row => row.base.price_usd) := List.get_mem _ _ _
    have hle := hub _ this
    rwa [hmap j hj hj'] at hle
  · intro j hj hji
    rw [hpi]
    have hj' : j < (data.map (fun row => row.base.price_usd)).length :=
      hlen ▸ hj
    have hne2 : (data.map (fun row => row.base.price_usd)).get ⟨j, hj'⟩ ≠ m :=
      ne_of_lt_indexOf hj' hji
    have hle : (data.map (fun row => row.base.price_usd)).get ⟨j, hj'⟩ ≤ m :=
      hub _ (List.get_mem _ _ _)
    have hlt := lt_of_le_of_ne hle hne2
    rwa [hmap j hj hj'] at hlt

/-- Witness for C7 at the two-row scenario (AMZN holds the maximum). -/
theorem summarize_max_ticker_first_witness :
    sampleRows ≠ [] ∧
    (∃ s, summarize sampleRows = Except.ok s ∧
      ∃ i, ∃ hi : i < sampleRows.length,
        s.max_price_ticker = (sampleRows.get ⟨i, hi⟩).base.ticker ∧
        (∀ j (hj : j < sampleRows.length),
          (sampleRows.get ⟨j, hj⟩).base.price_usd ≤
            (sampleRows.get ⟨i, hi⟩).base.price_usd) ∧
        (∀ j (hj : j < sampleRows.length), j < i →
          (sampleRows.get ⟨j, hj⟩).base.price_usd <
            (sampleRows.get ⟨i, hi⟩).base.price_usd)) :=
  ⟨by simp [sampleRows], summarize_max_ticker_first sampleRows
    (by simp [sampleRows])⟩

/-! ### C8 -/

/-- C8 amended: a produced summary counts at most `|records|` recommended
rows (the bound by the hard-coded `company_count` of 5 fails, see the
counterexample), and its `average_price` lies between the minimum and
maximum `price_usd` inclusive. -/
theorem summary_bounds (data : List DerivedRecord) (s : PortfolioSummary)
    (h : summarize data = Except.ok s) :
    s.split_recommended_count ≤ data.length ∧
    (∀ mn, (data.map (fun row => row.base.price_usd)).min? = some mn →
      mn ≤ s.average_price) ∧
    (∀ mx, (data.map (fun row => row.base.price_usd)).max? = some mx →
      s.average_price ≤ mx) := by
  have hlen0 : data ≠ [] → (0 : ℚ) < (data.length : ℚ) := by
    intro hne
    have : 0 < data.length := List.length_pos.mpr hne
    exact_mod_cast this
  cases hq : (data.map (fun row => row.base.price_usd)).max? with
  | none =>
    unfold summarize at h
    rw [hq] at h
    exact absurd h (by simp)
  | some mx0 =>
    cases hg : data.get?
        ((data.map (fun row => row.base.price_usd)).indexOf mx0) with
    | none =>
      unfold summarize at h
      rw [hq] at h
      simp only [hg] at h
      exact absurd h (by simp)
    | some row0 =>
      unfold summarize at h
      rw [hq] at h
      simp only [hg] at h
      have hs := (Except.ok.inj h).symm
      subst hs
      have hdne : data ≠ [] := by
        intro hnil
        subst hnil
        simp at hq
      refine ⟨List.length_filter_le _ _, ?_, ?_⟩
      · intro mn hmn
        obtain ⟨hmnmem, hlb⟩ := min?_spec hmn
        show mn ≤ avg_price data
        unfold avg_price
        rw [le_div_iff₀ (hlen0 hdne)]
        have hsum := List.card_nsmul_le_sum
          (data.map (fun row => row.base.price_usd)) mn hlb
        rw [List.length_map] at hsum
        rw [nsmul_eq_mul] at hsum
        rw [mul_comm]
        exact hsum
      · intro mx hmx
        obtain rfl := Option.some.inj hmx
        obtain ⟨hmxmem, hub⟩ := max?_spec hq
        show avg_price data ≤ mx0
        unfold avg_price
        rw [div_le_iff₀ (hlen0 hdne)]
        have hsum := List.sum_le_card_nsmul
          (data.map (fun row => row.base.price_usd)) mx0 hub
        rw [List.length_map] at hsum
        rw [nsmul_eq_mul] at hsum
        rw [mul_comm]
        exact hsum

/-- C8 counterexample: six rows all flagged `YES` yield a recommended
count of 6, which exceeds the hard-coded company count of 5. -/
theorem split_count_exceeds_company_count :
    summarize sixYes = Except.ok sixSummary ∧
    ¬ (sixSummary.split_recommended_count ≤ sixSummary.company_count) :=
  ⟨summarize_sixYes_eval, by decide⟩

/-- Witness for the amended C8 at the two-row scenario. -/
theorem summary_bounds_witness :
    summarize sampleRows = Except.ok sampleSummary ∧
    sampleSummary.split_recommended_count ≤ sampleRows.length ∧
    ((62.5 : ℚ) ≤ sampleSummary.average_price) ∧
    (sampleSummary.average_price ≤ (3584 : ℚ)) :=
  ⟨summarize_sampleRows_eval,
   (summary_bounds sampleRows sampleSummary summarize_sampleRows_eval).1,
   (summary_bounds sampleRows sampleSummary summarize_sampleRows_eval).2.1 62.5
     (by simp [sampleRows, amzn, ko, derive, min_def]; norm_num),
   (summary_bounds sampleRows sampleSummary summarize_sampleRows_eval).2.2 3584
     (by simp [sampleRows, amzn, ko, derive, max_def]; norm_num)⟩

end StockDashboard
